import Mathlib

/-!
Yatai api-server: login gate and route table.

A shallow embedding of `api-server/routes/routes.go`.

* The functions of the file (`getLoginUser`, `requireLogin`, `authRoutes`,
  `userRoutes`, `organizationRoutes`, `clusterRoutes`, `bundleRoutes`,
  `bundleVersionRoutes`, `NewRouter` and its `NoRoute` closure) are translated
  line by line.
* `gin.Context` becomes an explicit state record that is threaded through the
  handlers: handler chain, chain index, written response, the two request-scoped
  values written by `yataicontext.SetUserName` and `services.SetLoginUser`, and a
  log of every call made to a collaborator.
* The collaborators whose code is not in the file (the user store, the cookie
  decoder, the header-name constant) are fields of `Services`.
-/

namespace Yatai

/-! ## Go values -/

/-- Go `error` values as built with `github.com/pkg/errors`: `errors.New msg`
and `errors.Wrap cause msg` (`Wrapf` is `Wrap` with a formatted message). -/
inductive GoError where
  | New (msg : String)
  | Wrap (cause : GoError) (msg : String)
deriving DecidableEq, Repr

/-- The method `Error()`: a wrapped error prints as `msg: cause`. -/
def GoError.Error : GoError → String
  | .New msg => msg
  | .Wrap cause msg => msg ++ ": " ++ cause.Error

/-- The constant `http.StatusForbidden`. -/
def StatusForbidden : Nat := 403

/-- The constant `http.StatusNotFound`. -/
def StatusNotFound : Nat := 404

/-- The function `strings.HasPrefix s p`. -/
def HasPrefix (s p : String) : Bool := p.data.isPrefixOf s.data

/-! ## `path.Join` and the `joinPaths` of gin -/

/-- Cut a character list at every slash. -/
def splitSlash : List Char → List (List Char)
  | [] => [[]]
  | c :: cs =>
    if c = '/' then [] :: splitSlash cs
    else match splitSlash cs with
      | [] => [[c]]
      | s :: ss => (c :: s) :: ss

/-- One step of `path.Clean` on the stack of kept segments (most recent first). -/
def cleanStep (rooted : Bool) (stack : List (List Char)) (seg : List Char) : List (List Char) :=
  if seg = [] ∨ seg = ['.'] then stack
  else if seg = ['.', '.'] then
    match stack with
    | [] => if rooted then [] else [seg]
    | top :: rest => if top = ['.', '.'] then seg :: stack else rest
  else seg :: stack

/-- Join segments with single slashes. -/
def joinSlash : List (List Char) → List Char
  | [] => []
  | [s] => s
  | s :: t :: rest => s ++ '/' :: joinSlash (t :: rest)

/-- The function `path.Clean`. -/
def Clean (p : String) : String :=
  let rooted := p.data.head? = some '/'
  let segs := ((splitSlash p.data).foldl (cleanStep rooted) []).reverse
  let out := (if rooted then ['/'] else []) ++ joinSlash segs
  if out = [] then "." else String.mk out

/-- The function `path.Join`: the non-empty elements joined by slashes, cleaned;
the empty string when there is no non-empty element. -/
def pathJoin (elem : List String) : String :=
  match elem.filter (fun e => e ≠ "") with
  | [] => ""
  | es => Clean (String.mk (joinSlash (es.map String.data)))

/-- The helper `joinPaths` of the router groups of gin. -/
def joinPaths (absolutePath relativePath : String) : String :=
  if relativePath = "" then absolutePath
  else
    let finalPath := pathJoin [absolutePath, relativePath]
    if relativePath.data.getLast? = some '/' ∧ finalPath.data.getLast? ≠ some '/' then
      finalPath ++ "/"
    else finalPath

/-! ## Requests, users, collaborators -/

/-- The part of `http.Request` the file reads, plus the cookies that the session
decoder reads. -/
structure Request where
  Method : String
  Path : String
  Header : List (String × String)
  Cookies : List (String × String)
deriving DecidableEq, Repr

/-- Modelled from the spec: `models.User` is declared outside the file; the spec
calls it a record with at least a stable name; `Uid` stands for the rest of it. -/
structure User where
  Uid : Nat
  Name : String
deriving DecidableEq, Repr

/-- The collaborators of the file. `GetByApiToken` and `GetByName` are the two
methods of `services.UserService`: their Go result `(user, err)` is an `Except`,
a nil `err` coming with a user record; they are functions of the key they are
given. `GetUsernameFromCookie` is `scookie.GetUsernameFromCookie`, which gives
the empty string when the session holds no user name.
`YataiApiTokenHeaderName` is the constant of `consts`. -/
structure Services where
  YataiApiTokenHeaderName : String
  GetUsernameFromCookie : Request → String
  GetByApiToken : String → Except GoError User
  GetByName : String → Except GoError User

/-- The handlers that the file puts in chains. `Bound name` is a handler whose
code is elsewhere (a controller wrapped by `tonic.Handler`, an OAuth controller,
the OpenAPI handler, a static file handler). -/
inductive HandlerFunc where
  | Sessions
  | requireLogin
  | NoRoute
  | Bound (name : String)
deriving DecidableEq, Repr

/-- The observable calls, in the order they happen. -/
inductive Event where
  | GetHeader (key : String)
  | GetUsernameFromCookie
  | GetByApiToken (apiToken : String)
  | GetByName (name : String)
  | SetUserName (name : String)
  | SetLoginUser (user : User)
  | Next (caller : HandlerFunc)
  | Handler (name : String) (userName : Option String) (loginUser : Option User)
deriving DecidableEq, Repr

/-- The state of a `gin.Context`. `written` is the status and the `Message` of the
`MsgSchema` body once `JSON` was called; `userName` and `loginUser` are the values
stored by `yataicontext.SetUserName` and `services.SetLoginUser`. -/
structure Context where
  Request : Request
  handlers : List HandlerFunc
  index : Int
  written : Option (Nat × String)
  userName : Option String
  loginUser : Option User
  trace : List Event
deriving DecidableEq, Repr

/-- The constant `abortIndex` of gin. -/
def abortIndex : Int := 63

/-- A fresh context for a request dispatched to a handler chain (gin resets the
index to -1). -/
def newContext (req : Request) (handlers : List HandlerFunc) : Context :=
  { Request := req, handlers := handlers, index := -1, written := none,
    userName := none, loginUser := none, trace := [] }

/-- Append one event to the log. -/
def Context.log (ctx : Context) (e : Event) : Context :=
  { ctx with trace := ctx.trace ++ [e] }

/-- The method `GetHeader`: the first value stored under the key, or the empty
string when there is none (keys are compared as written). -/
def Context.GetHeader (ctx : Context) (key : String) : String :=
  (ctx.Request.Header.lookup key).getD ""

/-- The method `Abort`. -/
def Context.Abort (ctx : Context) : Context :=
  { ctx with index := abortIndex }

/-- The method `JSON` with a `MsgSchema` body. -/
def Context.JSON (ctx : Context) (code : Nat) (message : String) : Context :=
  { ctx with written := some (code, message) }

/-- The method `AbortWithStatusJSON`. -/
def Context.AbortWithStatusJSON (ctx : Context) (code : Nat) (message : String) : Context :=
  ctx.Abort.JSON code message

/-- The function `yataicontext.SetUserName`. -/
def SetUserName (ctx : Context) (name : String) : Context :=
  { ctx.log (.SetUserName name) with userName := some name }

/-- The function `services.SetLoginUser`. -/
def SetLoginUser (ctx : Context) (user : User) : Context :=
  { ctx.log (.SetLoginUser user) with loginUser := some user }

/-! ## The login gate -/

/-- The function `getLoginUser`: the context after the call and the pair
`(user, err)` as an `Except`. -/
def getLoginUser (sv : Services) (ctx : Context) : Context × Except GoError User :=
  let apiToken := ctx.GetHeader sv.YataiApiTokenHeaderName
  let ctx := ctx.log (.GetHeader sv.YataiApiTokenHeaderName)
  if apiToken ≠ "" then
    let ctx := ctx.log (.GetByApiToken apiToken)
    match sv.GetByApiToken apiToken with
    | .error err => (ctx, .error (.Wrap err "get user by api token"))
    | .ok user =>
      let ctx := SetUserName ctx user.Name
      let ctx := SetLoginUser ctx user
      (ctx, .ok user)
  else
    let ctx := ctx.log .GetUsernameFromCookie
    let username := sv.GetUsernameFromCookie ctx.Request
    if username = "" then
      (ctx, .error (.New "username in cookie is empty"))
    else
      let ctx := ctx.log (.GetByName username)
      match sv.GetByName username with
      | .error err => (ctx, .error (.Wrap err ("get user by name in cookie " ++ username)))
      | .ok user =>
        let ctx := SetUserName ctx user.Name
        let ctx := SetLoginUser ctx user
        (ctx, .ok user)

/-- The handler `requireLogin`; `Next` is the method `ctx.Next` of the running
engine. -/
def requireLogin (sv : Services) (Next : Context → Option Context) (ctx : Context) :
    Option Context :=
  match getLoginUser sv ctx with
  | (ctx, .error loginErr) => some (ctx.AbortWithStatusJSON StatusForbidden loginErr.Error)
  | (ctx, .ok _) => Next (ctx.log (.Next .requireLogin))

/-! ## The route table -/

/-- The map `staticDirs`, as its list of entries; `pwd` is the result of
`os.Getwd`. -/
def staticDirs (pwd : String) : List (String × String) :=
  [("/swagger", pathJoin [pwd, "statics/swagger-ui"])]

/-- The closure passed to `engine.NoRoute`. When it writes nothing, `written` stays
as it was: what gin itself sends for a request left without a body is outside the
file. -/
def noRouteHandler (pwd : String) (ctx : Context) : Context :=
  if HasPrefix ctx.Request.Path "/api/" then
    ctx.JSON StatusNotFound ("not found this router with method " ++ ctx.Request.Method)
  else
    match (staticDirs pwd).find? (fun d => HasPrefix ctx.Request.Path d.1) with
    | some _ =>
      ctx.JSON StatusNotFound ("not found this router with method " ++ ctx.Request.Method)
    | none => ctx

/-- The options `fizz.ID` and `fizz.Summary` of a registration. -/
inductive OperationOption where
  | ID (id : String)
  | Summary (summary : String)
deriving DecidableEq, Repr

/-- One registered route: what gin stores for a `(method, path)` pair (the whole
chain, group middleware first) and what fizz keeps for the documentation. -/
structure RouteInfo where
  Method : String
  Path : String
  infos : List OperationOption
  Handlers : List HandlerFunc
deriving DecidableEq, Repr

/-- A router group of gin (fizz wraps one): its base path and its middleware. -/
structure RouterGroup where
  basePath : String
  Handlers : List HandlerFunc
deriving DecidableEq, Repr

/-- The method `Group`; `name` and `description` only feed the documentation. -/
def RouterGroup.Group (g : RouterGroup) (path : String) (_name _description : String) :
    RouterGroup :=
  { basePath := joinPaths g.basePath path, Handlers := g.Handlers }

/-- The method `Handle`: the absolute path is joined, the chain is the middleware
of the group followed by the handlers given. -/
def RouterGroup.Handle (g : RouterGroup) (path method : String) (infos : List OperationOption)
    (handlers : List HandlerFunc) : RouteInfo :=
  { Method := method, Path := joinPaths g.basePath path, infos := infos,
    Handlers := g.Handlers ++ handlers }

/-- The method `GET`. -/
def RouterGroup.GET (g : RouterGroup) (path : String) (infos : List OperationOption)
    (handlers : List HandlerFunc) : RouteInfo := g.Handle path "GET" infos handlers

/-- The method `POST`. -/
def RouterGroup.POST (g : RouterGroup) (path : String) (infos : List OperationOption)
    (handlers : List HandlerFunc) : RouteInfo := g.Handle path "POST" infos handlers

/-- The method `PATCH`. -/
def RouterGroup.PATCH (g : RouterGroup) (path : String) (infos : List OperationOption)
    (handlers : List HandlerFunc) : RouteInfo := g.Handle path "PATCH" infos handlers

/-- The method `DELETE`. -/
def RouterGroup.DELETE (g : RouterGroup) (path : String) (infos : List OperationOption)
    (handlers : List HandlerFunc) : RouteInfo := g.Handle path "DELETE" infos handlers

/-- The method `HEAD`. -/
def RouterGroup.HEAD (g : RouterGroup) (path : String) (infos : List OperationOption)
    (handlers : List HandlerFunc) : RouteInfo := g.Handle path "HEAD" infos handlers

/-- The method `Static` of gin: a file handler registered for `GET` and `HEAD` on
the wildcard path below `relativePath`. -/
def RouterGroup.Static (g : RouterGroup) (relativePath root : String) : List RouteInfo :=
  let handler := HandlerFunc.Bound ("static " ++ root)
  let urlPattern := pathJoin [relativePath, "/*filepath"]
  [g.GET urlPattern [] [handler], g.HEAD urlPattern [] [handler]]

/-- The wrapper `tonic.Handler controller status`: a handler bound to a controller
method. -/
def tonicHandler (controller : String) (_status : Nat) : HandlerFunc := .Bound controller

/-- The function `bundleVersionRoutes`, as the list of the routes it registers. -/
def bundleVersionRoutes (grp : RouterGroup) : List RouteInfo :=
  let grp := grp.Group "/versions" "bundle versions" "bundle versions"
  let resourceGrp := grp.Group "/:version" "bundle version resource" "bundle version resource"
  [ resourceGrp.GET "" [.ID "Get a bundle version", .Summary "Get a bundle version"]
      [.requireLogin, tonicHandler "controllersv1.BundleVersionController.Get" 200],
    resourceGrp.PATCH "/start_upload" [.ID "Start upload a bundle version", .Summary "Start upload a bundle version"]
      [.requireLogin, tonicHandler "controllersv1.BundleVersionController.StartUpload" 200],
    resourceGrp.PATCH "/finish_upload" [.ID "Finish upload a bundle version", .Summary "Finish upload a bundle version"]
      [.requireLogin, tonicHandler "controllersv1.BundleVersionController.FinishUpload" 200],
    grp.GET "" [.ID "List bundle versions", .Summary "List bundle versions"]
      [.requireLogin, tonicHandler "controllersv1.BundleVersionController.List" 200],
    grp.POST "" [.ID "Create bundle version", .Summary "Create bundle version"]
      [.requireLogin, tonicHandler "controllersv1.BundleVersionController.Create" 200] ]

/-- The function `bundleRoutes`, as the list of the routes it registers. -/
def bundleRoutes (grp : RouterGroup) : List RouteInfo :=
  let grp := grp.Group "/bundles" "bundles" "bundles"
  let resourceGrp := grp.Group "/:bundleName" "bundle resource" "bundle resource"
  [ resourceGrp.GET "" [.ID "Get a bundle", .Summary "Get a bundle"]
      [.requireLogin, tonicHandler "controllersv1.BundleController.Get" 200],
    resourceGrp.PATCH "" [.ID "Update a bundle", .Summary "Update a bundle"]
      [.requireLogin, tonicHandler "controllersv1.BundleController.Update" 200],
    grp.GET "" [.ID "List bundles", .Summary "List bundles"]
      [.requireLogin, tonicHandler "controllersv1.BundleController.List" 200],
    grp.POST "" [.ID "Create bundle", .Summary "Create bundle"]
      [.requireLogin, tonicHandler "controllersv1.BundleController.Create" 200] ]
  ++ bundleVersionRoutes resourceGrp

/-- The function `clusterRoutes`, as the list of the routes it registers. -/
def clusterRoutes (grp : RouterGroup) : List RouteInfo :=
  let grp := grp.Group "/clusters" "clusters" "clusters"
  let resourceGrp := grp.Group "/:clusterName" "cluster resource" "cluster resource"
  [ resourceGrp.GET "" [.ID "Get a cluster", .Summary "Get a cluster"]
      [.requireLogin, tonicHandler "controllersv1.ClusterController.Get" 200],
    resourceGrp.PATCH "" [.ID "Update a cluster", .Summary "Update a cluster"]
      [.requireLogin, tonicHandler "controllersv1.ClusterController.Update" 200],
    resourceGrp.GET "/members" [.ID "List cluster members", .Summary "List cluster members"]
      [.requireLogin, tonicHandler "controllersv1.ClusterMemberController.List" 200],
    resourceGrp.POST "/members" [.ID "Create a cluster member", .Summary "Create a cluster member"]
      [.requireLogin, tonicHandler "controllersv1.ClusterMemberController.Create" 200],
    resourceGrp.DELETE "/members" [.ID "Remove a cluster member", .Summary "Remove a cluster member"]
      [.requireLogin, tonicHandler "controllersv1.ClusterMemberController.Delete" 200],
    grp.GET "" [.ID "List clusters", .Summary "List clusters"]
      [.requireLogin, tonicHandler "controllersv1.ClusterController.List" 200],
    grp.POST "" [.ID "Create cluster", .Summary "Create cluster"]
      [.requireLogin, tonicHandler "controllersv1.ClusterController.Create" 200] ]
  ++ bundleRoutes resourceGrp

/-- The function `organizationRoutes`, as the list of the routes it registers. -/
def organizationRoutes (grp : RouterGroup) : List RouteInfo :=
  let grp := grp.Group "/orgs" "organizations" "organizations"
  let resourceGrp := grp.Group "/:orgName" "organization resource" "organization resource"
  [ resourceGrp.GET "" [.ID "Get an organization", .Summary "Get an organization"]
      [.requireLogin, tonicHandler "controllersv1.OrganizationController.Get" 200],
    resourceGrp.PATCH "" [.ID "Update an organization", .Summary "Update an organization"]
      [.requireLogin, tonicHandler "controllersv1.OrganizationController.Update" 200],
    resourceGrp.GET "/members" [.ID "List organization members", .Summary "Get organization members"]
      [.requireLogin, tonicHandler "controllersv1.OrganizationMemberController.List" 200],
    resourceGrp.POST "/members" [.ID "Create an organization member", .Summary "Create an organization member"]
      [.requireLogin, tonicHandler "controllersv1.OrganizationMemberController.Create" 200],
    resourceGrp.DELETE "/members" [.ID "Remove an organization member", .Summary "Remove an organization member"]
      [.requireLogin, tonicHandler "controllersv1.OrganizationMemberController.Delete" 200],
    grp.GET "" [.ID "List organizations", .Summary "List organizations"]
      [.requireLogin, tonicHandler "controllersv1.OrganizationController.List" 200],
    grp.POST "" [.ID "Create organization", .Summary "Create organization"]
      [.requireLogin, tonicHandler "controllersv1.OrganizationController.Create" 200] ]
  ++ clusterRoutes resourceGrp

/-- The function `userRoutes`, as the list of the routes it registers. -/
def userRoutes (grp : RouterGroup) : List RouteInfo :=
  let grp := grp.Group "/users" "users" "users api"
  let resourceGrp := grp.Group "/:userName" "user resource" "user resource"
  [ resourceGrp.GET "" [.ID "Get an user", .Summary "Get an user"]
      [.requireLogin, tonicHandler "controllersv1.UserController.Get" 200],
    grp.GET "" [.ID "List users", .Summary "List users"]
      [.requireLogin, tonicHandler "controllersv1.UserController.List" 200] ]

/-- The function `authRoutes`, as the list of the routes it registers. -/
def authRoutes (grp : RouterGroup) : List RouteInfo :=
  let grp := grp.Group "/auth" "auth" "auth"
  [ grp.POST "/register" [.ID "Register an user", .Summary "Register an user"]
      [tonicHandler "controllersv1.AuthController.Register" 200],
    grp.POST "/login" [.ID "Login an user", .Summary "Login an user"]
      [tonicHandler "controllersv1.AuthController.Login" 200],
    grp.GET "/current" [.ID "Get current user", .Summary "Get current user"]
      [.requireLogin, tonicHandler "controllersv1.AuthController.GetCurrentUser" 200] ]

/-- The engine that `NewRouter` returns: the registered routes and the chain run
when no route matches. -/
structure Engine where
  routes : List RouteInfo
  allNoRoute : List HandlerFunc
deriving DecidableEq, Repr

/-- The engine after `gin.New` and `engine.Use (sessions.Sessions ...)`: the root
group, with the session middleware. -/
def engineGroup : RouterGroup := { basePath := "/", Handlers := [.Sessions] }

/-- The group `rootGrp` of `NewRouter`. -/
def rootGrp : RouterGroup := engineGroup.Group "/api/v1" "api v1" "api v1"

/-- The routes that `NewRouter` registers before it checks the fizz errors. -/
def declaredRoutes : List RouteInfo :=
  let oauthGrp := engineGroup.Group "oauth" "" ""
  let callbackGrp := engineGroup.Group "callback" "" ""
  [ oauthGrp.GET "/github" [] [.Bound "controllersv1.GithubOAuthLogin"],
    callbackGrp.GET "/github" [] [.Bound "controllersv1.GithubOAuthCallBack"],
    engineGroup.GET "/openapi.json" [] [.Bound "fizzApp.OpenAPI"] ]
  ++ authRoutes rootGrp
  ++ userRoutes rootGrp
  ++ organizationRoutes rootGrp

/-- The function `NewRouter`. `pwd` is the working directory, `fizzErrors` is what
`fizzApp.Errors` returns after the registrations. -/
def NewRouter (pwd : String) (fizzErrors : List String) : Except String Engine :=
  if fizzErrors.length ≠ 0 then
    .error ("fizz errors: [" ++ " ".intercalate fizzErrors ++ "]")
  else
    .ok { routes := declaredRoutes ++ ((staticDirs pwd).map (fun d => engineGroup.Static d.1 d.2)).flatten,
          allNoRoute := engineGroup.Handlers ++ [.NoRoute] }

/-! ## Running a handler chain -/

/-- One handler of a chain, run on a context; `Next` is `ctx.Next`. A bound handler
is logged with the user name and the logged-in user it can read. -/
def callHandler (sv : Services) (pwd : String) (Next : Context → Option Context) :
    HandlerFunc → Context → Option Context
  | .Sessions, ctx => Next (ctx.log (.Next .Sessions))
  | .requireLogin, ctx => requireLogin sv Next ctx
  | .NoRoute, ctx => some (noRouteHandler pwd ctx)
  | .Bound name, ctx => some (ctx.log (.Handler name ctx.userName ctx.loginUser))

/-- The loop of the method `Next` of gin, from the current index on:
`for c.index < len(c.handlers) { c.handlers[c.index](c); c.index++ }`.
`none` is only returned when the fuel runs out. -/
def serveFrom (sv : Services) (pwd : String) : Nat → Context → Option Context
  | 0, _ => none
  | fuel + 1, ctx =>
    if ctx.index < ctx.handlers.length then
      match ctx.handlers[ctx.index.toNat]? with
      | none => some ctx
      | some h =>
        match callHandler sv pwd
            (fun c => serveFrom sv pwd fuel { c with index := c.index + 1 }) h ctx with
        | none => none
        | some c => serveFrom sv pwd fuel { c with index := c.index + 1 }
    else some ctx

/-- The method `Next`: `c.index++` and the loop. -/
def Context.Next (sv : Services) (pwd : String) (fuel : Nat) (ctx : Context) : Option Context :=
  serveFrom sv pwd fuel { ctx with index := ctx.index + 1 }

/-- A request dispatched to a chain: a fresh context and `Next`. -/
def handle (sv : Services) (pwd : String) (fuel : Nat) (handlers : List HandlerFunc)
    (req : Request) : Option Context :=
  (newContext req handlers).Next sv pwd fuel

/-! ## The groups of the nested registration calls -/

/-- The group `resourceGrp` of `organizationRoutes` in the call made by `NewRouter`;
it is the argument of `clusterRoutes`. -/
def orgResourceGrp : RouterGroup :=
  (rootGrp.Group "/orgs" "organizations" "organizations").Group "/:orgName"
    "organization resource" "organization resource"

/-- The group `resourceGrp` of `clusterRoutes` in that call; it is the argument of
`bundleRoutes`. -/
def clusterResourceGrp : RouterGroup :=
  (orgResourceGrp.Group "/clusters" "clusters" "clusters").Group "/:clusterName"
    "cluster resource" "cluster resource"

/-- The group `resourceGrp` of `bundleRoutes` in that call; it is the argument of
`bundleVersionRoutes`. -/
def bundleResourceGrp : RouterGroup :=
  (clusterResourceGrp.Group "/bundles" "bundles" "bundles").Group "/:bundleName"
    "bundle resource" "bundle resource"

/-- The name of the bound handler that ends a chain (empty when the chain does not
end with one). -/
def lastBound (handlers : List HandlerFunc) : String :=
  match handlers.getLast? with
  | some (.Bound name) => name
  | _ => ""

/-- The context on which `requireLogin` runs in a chain that starts with the session
middleware: index 1, one `Next` made by the middleware. -/
def gateContext (req : Request) (handlers : List HandlerFunc) : Context :=
  { newContext req handlers with index := 1, trace := [.Next .Sessions] }

/-! ## Reading a response -/

/-- The function `strings.Contains s substr`, as a proposition. -/
def Contains (s substr : String) : Prop := substr.data <:+: s.data

/-- The message of the response body, when one was written. -/
def bodyMessage (c : Option Context) : Option String :=
  (c.bind Context.written).map Prod.snd

/-- The status of the response, when one was written. -/
def bodyStatus (c : Option Context) : Option Nat :=
  (c.bind Context.written).map Prod.fst

/-! ## The lists of the spec -/

/-- The triple that the hierarchy of the spec gives for a route: method, path
template, and whether `requireLogin` is in its chain. -/
def RouteInfo.triple (r : RouteInfo) : String × String × Bool :=
  (r.Method, r.Path, r.Handlers.contains .requireLogin)

/-- The hierarchy of section 4.4 of the spec, written out from its words: every
method of every path template, with its login guard. -/
def specHierarchy : List (String × String × Bool) :=
  [ ("POST", "/api/v1/auth/register", false),
    ("POST", "/api/v1/auth/login", false),
    ("GET", "/api/v1/auth/current", true),
    ("GET", "/api/v1/users", true),
    ("GET", "/api/v1/users/:userName", true),
    ("GET", "/api/v1/orgs", true),
    ("POST", "/api/v1/orgs", true),
    ("GET", "/api/v1/orgs/:orgName", true),
    ("PATCH", "/api/v1/orgs/:orgName", true),
    ("GET", "/api/v1/orgs/:orgName/members", true),
    ("POST", "/api/v1/orgs/:orgName/members", true),
    ("DELETE", "/api/v1/orgs/:orgName/members", true),
    ("GET", "/api/v1/orgs/:orgName/clusters", true),
    ("POST", "/api/v1/orgs/:orgName/clusters", true),
    ("GET", "/api/v1/orgs/:orgName/clusters/:clusterName", true),
    ("PATCH", "/api/v1/orgs/:orgName/clusters/:clusterName", true),
    ("GET", "/api/v1/orgs/:orgName/clusters/:clusterName/members", true),
    ("POST", "/api/v1/orgs/:orgName/clusters/:clusterName/members", true),
    ("DELETE", "/api/v1/orgs/:orgName/clusters/:clusterName/members", true),
    ("GET", "/api/v1/orgs/:orgName/clusters/:clusterName/bundles", true),
    ("POST", "/api/v1/orgs/:orgName/clusters/:clusterName/bundles", true),
    ("GET", "/api/v1/orgs/:orgName/clusters/:clusterName/bundles/:bundleName", true),
    ("PATCH", "/api/v1/orgs/:orgName/clusters/:clusterName/bundles/:bundleName", true),
    ("GET", "/api/v1/orgs/:orgName/clusters/:clusterName/bundles/:bundleName/versions", true),
    ("POST", "/api/v1/orgs/:orgName/clusters/:clusterName/bundles/:bundleName/versions", true),
    ("GET",
      "/api/v1/orgs/:orgName/clusters/:clusterName/bundles/:bundleName/versions/:version", true),
    ("PATCH",
      "/api/v1/orgs/:orgName/clusters/:clusterName/bundles/:bundleName/versions/:version/start_upload",
      true),
    ("PATCH",
      "/api/v1/orgs/:orgName/clusters/:clusterName/bundles/:bundleName/versions/:version/finish_upload",
      true) ]

/-- The routes that the invariant of the spec lets through without the gate: the
OAuth login and callback routes and the login endpoints of `/auth` (the
registration endpoint is counted with them). -/
def specGateFree : List (String × String) :=
  [ ("GET", "/oauth/github"), ("GET", "/callback/github"),
    ("POST", "/api/v1/auth/register"), ("POST", "/api/v1/auth/login") ]

/-- The routes that `NewRouter` registers without `requireLogin`. -/
def gateFreeRoutes : List (String × String) :=
  [ ("GET", "/oauth/github"), ("GET", "/callback/github"), ("GET", "/openapi.json"),
    ("POST", "/api/v1/auth/register"), ("POST", "/api/v1/auth/login"),
    ("GET", "/swagger/*filepath"), ("HEAD", "/swagger/*filepath") ]

/-! ## Sample data -/

/-- A user store with one user reachable by cookie name and one by token. -/
def sampleServices : Services :=
  { YataiApiTokenHeaderName := "X-YATAI-API-TOKEN",
    GetUsernameFromCookie := fun req => (req.Cookies.lookup "yatai-session").getD "",
    GetByApiToken := fun t =>
      if t = "tok-bob" then .ok ⟨2, "bob"⟩ else .error (.New "record not found"),
    GetByName := fun n =>
      if n = "alice" then .ok ⟨1, "alice"⟩ else .error (.New "record not found") }

/-- A request with no token header and no cookie. -/
def anonymousRequest (method path : String) : Request :=
  { Method := method, Path := path, Header := [], Cookies := [] }

/-- A request with a session cookie only. -/
def cookieRequest (method path username : String) : Request :=
  { Method := method, Path := path, Header := [], Cookies := [("yatai-session", username)] }

/-- A request with a token header and a session cookie. -/
def tokenRequest (method path apiToken username : String) : Request :=
  { Method := method, Path := path, Header := [("X-YATAI-API-TOKEN", apiToken)],
    Cookies := [("yatai-session", username)] }

/-! ## Lemmas on `getLoginUser` and on chains -/

theorem getLoginUser_token (sv : Services) (ctx : Context)
    (h : ctx.GetHeader sv.YataiApiTokenHeaderName ≠ "") :
    getLoginUser sv ctx =
      match sv.GetByApiToken (ctx.GetHeader sv.YataiApiTokenHeaderName) with
      | .error err =>
        ({ ctx with trace := ctx.trace ++ [.GetHeader sv.YataiApiTokenHeaderName,
              .GetByApiToken (ctx.GetHeader sv.YataiApiTokenHeaderName)] },
          .error (.Wrap err "get user by api token"))
      | .ok user =>
        ({ ctx with
            trace := ctx.trace ++ [.GetHeader sv.YataiApiTokenHeaderName,
              .GetByApiToken (ctx.GetHeader sv.YataiApiTokenHeaderName),
              .SetUserName user.Name, .SetLoginUser user],
            userName := some user.Name, loginUser := some user }, .ok user) := by
  simp only [getLoginUser, h, ne_eq, not_false_eq_true, if_true]
  cases sv.GetByApiToken (ctx.GetHeader sv.YataiApiTokenHeaderName) <;>
    simp [Context.log, SetUserName, SetLoginUser, Context.GetHeader]

theorem getLoginUser_cookie (sv : Services) (ctx : Context)
    (h : ctx.GetHeader sv.YataiApiTokenHeaderName = "") :
    getLoginUser sv ctx =
      if sv.GetUsernameFromCookie ctx.Request = "" then
        ({ ctx with trace := ctx.trace ++ [.GetHeader sv.YataiApiTokenHeaderName,
              .GetUsernameFromCookie] },
          .error (.New "username in cookie is empty"))
      else
        match sv.GetByName (sv.GetUsernameFromCookie ctx.Request) with
        | .error err =>
          ({ ctx with trace := ctx.trace ++ [.GetHeader sv.YataiApiTokenHeaderName,
                .GetUsernameFromCookie, .GetByName (sv.GetUsernameFromCookie ctx.Request)] },
            .error (.Wrap err ("get user by name in cookie " ++ sv.GetUsernameFromCookie ctx.Request)))
        | .ok user =>
          ({ ctx with
              trace := ctx.trace ++ [.GetHeader sv.YataiApiTokenHeaderName,
                .GetUsernameFromCookie, .GetByName (sv.GetUsernameFromCookie ctx.Request),
                .SetUserName user.Name, .SetLoginUser user],
              userName := some user.Name, loginUser := some user }, .ok user) := by
  simp only [getLoginUser, h, ne_eq, not_true_eq_false, if_false, Context.log]
  by_cases hc : sv.GetUsernameFromCookie ctx.Request = ""
  · simp [hc]
  · simp only [hc, if_false]
    cases sv.GetByName (sv.GetUsernameFromCookie ctx.Request) <;>
      simp [Context.log, SetUserName, SetLoginUser]


theorem getLoginUser_frame (sv : Services) (ctx : Context) :
    (getLoginUser sv ctx).1.Request = ctx.Request ∧
    (getLoginUser sv ctx).1.handlers = ctx.handlers ∧
    (getLoginUser sv ctx).1.index = ctx.index ∧
    (getLoginUser sv ctx).1.written = ctx.written := by
  by_cases h : ctx.GetHeader sv.YataiApiTokenHeaderName = ""
  · rw [getLoginUser_cookie sv ctx h]
    split
    · simp
    · split <;> simp
  · rw [getLoginUser_token sv ctx h]
    split <;> simp

theorem getLoginUser_result_of_request (sv : Services) (c₁ c₂ : Context)
    (h : c₁.Request = c₂.Request) :
    (getLoginUser sv c₁).2 = (getLoginUser sv c₂).2 := by
  have hh : c₁.GetHeader sv.YataiApiTokenHeaderName = c₂.GetHeader sv.YataiApiTokenHeaderName := by
    simp [Context.GetHeader, h]
  by_cases h₂ : c₂.GetHeader sv.YataiApiTokenHeaderName = ""
  · rw [getLoginUser_cookie sv c₂ h₂, getLoginUser_cookie sv c₁ (hh.trans h₂), h]
    split
    · rfl
    · split <;> rfl
  · rw [getLoginUser_token sv c₂ h₂, getLoginUser_token sv c₁ (hh ▸ h₂), hh]
    split <;> rfl

theorem serveFrom_done (sv : Services) (pwd : String) (fuel : Nat) (ctx : Context)
    (h : ¬ ctx.index < ctx.handlers.length) :
    serveFrom sv pwd (fuel + 1) ctx = some ctx := by
  simp only [serveFrom, h, if_false]

theorem serveFrom_step (sv : Services) (pwd : String) (fuel : Nat) (ctx : Context)
    (hf : HandlerFunc) (hlt : ctx.index < ctx.handlers.length)
    (hget : ctx.handlers[ctx.index.toNat]? = some hf) :
    serveFrom sv pwd (fuel + 1) ctx =
      (callHandler sv pwd (fun c => serveFrom sv pwd fuel { c with index := c.index + 1 }) hf ctx).bind
        (fun c => serveFrom sv pwd fuel { c with index := c.index + 1 }) := by
  simp only [serveFrom, hlt, if_true, hget]
  cases callHandler sv pwd (fun c => serveFrom sv pwd fuel { c with index := c.index + 1 }) hf ctx <;> rfl

theorem handle_guarded_chain (sv : Services) (pwd : String) (k : Nat) (name : String)
    (req : Request) :
    handle sv pwd (k + 4) [.Sessions, .requireLogin, .Bound name] req =
      match getLoginUser sv (gateContext req [.Sessions, .requireLogin, .Bound name]) with
      | (c, .error e) => some { c with index := 65, written := some (StatusForbidden, e.Error) }
      | (c, .ok _) =>
        some { c with index := 5,
                      trace := c.trace ++ [.Next .requireLogin, .Handler name c.userName c.loginUser] } := by
  have hfr := getLoginUser_frame sv (gateContext req [.Sessions, .requireLogin, .Bound name])
  rcases hg : getLoginUser sv (gateContext req [.Sessions, .requireLogin, .Bound name]) with ⟨c, res⟩
  rw [hg] at hfr
  obtain ⟨-, hh, hi, -⟩ := hfr
  simp only [gateContext, newContext] at hh hi
  unfold handle Context.Next
  rw [serveFrom_step sv pwd (k + 3) _ .Sessions (by simp [newContext]) (by simp [newContext])]
  simp only [callHandler, Context.log, newContext]
  rw [serveFrom_step sv pwd (k + 2) _ .requireLogin (by simp) (by simp)]
  simp only [callHandler, requireLogin]
  have hg2 : getLoginUser sv ⟨req, [.Sessions, .requireLogin, .Bound name], -1 + 1 + 1, none,
      none, none, [] ++ [Event.Next .Sessions]⟩ = (c, res) := by
    rw [← hg]; rfl
  rw [hg2]
  cases res with
  | error e =>
    simp only [Option.bind, Context.AbortWithStatusJSON, Context.Abort, Context.JSON, abortIndex]
    rw [serveFrom_done _ _ _ _ (by simp [hh])]
    simp only []
    rw [serveFrom_done _ _ _ _ (by simp [hh])]
    simp
  | ok u =>
    simp only [Context.log]
    rw [serveFrom_step sv pwd (k + 1) _ (.Bound name) (by simp [hh, hi]) (by simp [hh, hi])]
    simp only [callHandler, Context.log, Option.bind]
    rw [serveFrom_done _ _ _ _ (by simp [hh, hi])]
    simp only []
    rw [serveFrom_done _ _ _ _ (by simp [hh, hi])]
    simp only []
    rw [serveFrom_done _ _ _ _ (by simp [hh, hi])]
    simp [hi]


theorem handle_open_chain (sv : Services) (pwd : String) (k : Nat) (name : String)
    (req : Request) :
    handle sv pwd (k + 3) [.Sessions, .Bound name] req =
      some { newContext req [.Sessions, .Bound name] with
        index := 3, trace := [.Next .Sessions, .Handler name none none] } := by
  unfold handle Context.Next
  rw [serveFrom_step sv pwd (k + 2) _ .Sessions (by simp [newContext]) (by simp [newContext])]
  simp only [callHandler, Context.log, newContext]
  rw [serveFrom_step sv pwd (k + 1) _ (.Bound name) (by simp) (by simp)]
  simp only [callHandler, Context.log, Option.bind]
  rw [serveFrom_done _ _ _ _ (by simp)]
  simp only []
  rw [serveFrom_done _ _ _ _ (by simp)]
  simp

theorem noRouteHandler_frame (pwd : String) (ctx : Context) :
    (noRouteHandler pwd ctx).handlers = ctx.handlers ∧
    (noRouteHandler pwd ctx).index = ctx.index ∧
    (noRouteHandler pwd ctx).trace = ctx.trace := by
  unfold noRouteHandler
  split
  · simp [Context.JSON]
  · split <;> simp [Context.JSON]

theorem handle_noRoute_chain (sv : Services) (pwd : String) (k : Nat) (req : Request) :
    handle sv pwd (k + 3) [.Sessions, .NoRoute] req =
      some { noRouteHandler pwd (gateContext req [.Sessions, .NoRoute]) with index := 3 } := by
  obtain ⟨hh0, hi0, -⟩ := noRouteHandler_frame pwd (gateContext req [.Sessions, .NoRoute])
  have hh : (noRouteHandler pwd (gateContext req [.Sessions, .NoRoute])).handlers =
      [.Sessions, .NoRoute] := hh0
  have hi : (noRouteHandler pwd (gateContext req [.Sessions, .NoRoute])).index = 1 := hi0
  unfold handle Context.Next
  rw [serveFrom_step sv pwd (k + 2) _ .Sessions (by simp [newContext]) (by simp [newContext])]
  simp only [callHandler, Context.log, newContext]
  rw [serveFrom_step sv pwd (k + 1) _ .NoRoute (by simp) (by simp)]
  simp only [callHandler, Option.bind]
  have hn : noRouteHandler pwd ⟨req, [.Sessions, .NoRoute], -1 + 1 + 1, none, none, none,
      [] ++ [Event.Next .Sessions]⟩ = noRouteHandler pwd (gateContext req [.Sessions, .NoRoute]) := rfl
  rw [hn, serveFrom_done _ _ _ _ (by simp [hh, hi])]
  simp only []
  rw [serveFrom_done _ _ _ _ (by simp [hh, hi])]
  simp [hi]

theorem protected_chain_shape :
    ∀ r ∈ userRoutes rootGrp ++ organizationRoutes rootGrp ++ clusterRoutes orgResourceGrp ++
        bundleRoutes clusterResourceGrp ++ bundleVersionRoutes bundleResourceGrp,
      r.Handlers = [.Sessions, .requireLogin, .Bound (lastBound r.Handlers)] := by
  decide

theorem getLoginUser_outcome (sv : Services) (ctx : Context) :
    (∀ e, (getLoginUser sv ctx).2 = .error e →
      ∃ evs, (getLoginUser sv ctx).1 = { ctx with trace := ctx.trace ++ evs } ∧
        (∀ n, Event.SetUserName n ∉ evs) ∧ ∀ u, Event.SetLoginUser u ∉ evs) ∧
    (∀ u, (getLoginUser sv ctx).2 = .ok u →
      ∃ evs, (getLoginUser sv ctx).1 =
          { ctx with trace := ctx.trace ++ (evs ++ [.SetUserName u.Name, .SetLoginUser u]),
                     userName := some u.Name, loginUser := some u } ∧
        (∀ n, Event.SetUserName n ∉ evs) ∧ ∀ v, Event.SetLoginUser v ∉ evs) := by
  by_cases h : ctx.GetHeader sv.YataiApiTokenHeaderName = ""
  · rw [getLoginUser_cookie sv ctx h]
    by_cases hc : sv.GetUsernameFromCookie ctx.Request = ""
    · simp only [hc, if_true]
      exact ⟨fun e _ => ⟨_, rfl, by simp, by simp⟩, fun u hu => by simp at hu⟩
    · simp only [hc, if_false]
      cases sv.GetByName (sv.GetUsernameFromCookie ctx.Request) with
      | error err => exact ⟨fun e _ => ⟨_, rfl, by simp, by simp⟩, fun u hu => by simp at hu⟩
      | ok v =>
        refine ⟨fun e he => by simp at he, fun u hu => ?_⟩
        simp only [Except.ok.injEq] at hu
        subst hu
        exact ⟨[.GetHeader sv.YataiApiTokenHeaderName, .GetUsernameFromCookie,
          .GetByName (sv.GetUsernameFromCookie ctx.Request)], by simp, by simp, by simp⟩
  · rw [getLoginUser_token sv ctx h]
    cases sv.GetByApiToken (ctx.GetHeader sv.YataiApiTokenHeaderName) with
    | error err => exact ⟨fun e _ => ⟨_, rfl, by simp, by simp⟩, fun u hu => by simp at hu⟩
    | ok v =>
      refine ⟨fun e he => by simp at he, fun u hu => ?_⟩
      simp only [Except.ok.injEq] at hu
      subst hu
      exact ⟨[.GetHeader sv.YataiApiTokenHeaderName,
        .GetByApiToken (ctx.GetHeader sv.YataiApiTokenHeaderName)], by simp, by simp, by simp⟩

theorem static_routes (root : String) :
    engineGroup.Static "/swagger" root =
      [ ⟨"GET", "/swagger/*filepath", [], [.Sessions, .Bound ("static " ++ root)]⟩,
        ⟨"HEAD", "/swagger/*filepath", [], [.Sessions, .Bound ("static " ++ root)]⟩ ] := by
  have hp : joinPaths "/" (pathJoin ["/swagger", "/*filepath"]) = "/swagger/*filepath" := by
    decide
  simp [RouterGroup.Static, RouterGroup.GET, RouterGroup.HEAD, RouterGroup.Handle, hp,
    engineGroup]

theorem NewRouter_ok (pwd : String) (fizzErrors : List String) (e : Engine)
    (h : NewRouter pwd fizzErrors = .ok e) :
    e.routes = declaredRoutes ++ engineGroup.Static "/swagger" (pathJoin [pwd, "statics/swagger-ui"]) ∧
    e.allNoRoute = [.Sessions, .NoRoute] := by
  unfold NewRouter at h
  split at h
  · cases h
  · simp only [Except.ok.injEq] at h
    subst h
    simp [staticDirs, engineGroup]

theorem NewRouter_no_errors (pwd : String) :
    NewRouter pwd [] = .ok
      { routes := declaredRoutes ++ engineGroup.Static "/swagger" (pathJoin [pwd, "statics/swagger-ui"]),
        allNoRoute := [.Sessions, .NoRoute] } := by
  simp [NewRouter, staticDirs, engineGroup]

theorem apiRoutes_chain_shape :
    ∀ r ∈ declaredRoutes,
      ((r.Method, r.Path) ∉ gateFreeRoutes →
        r.Handlers = [.Sessions, .requireLogin, .Bound (lastBound r.Handlers)]) ∧
      ((r.Method, r.Path) ∈ gateFreeRoutes →
        r.Handlers = [.Sessions, .Bound (lastBound r.Handlers)]) := by
  decide

/-! ## The claims -/

/-- C1: every route registered by `userRoutes`, `organizationRoutes`, `clusterRoutes`,
`bundleRoutes` and `bundleVersionRoutes` has the chain session middleware,
`requireLogin`, bound controller handler, so `requireLogin` comes strictly before
the bound handler; and on every request for which `getLoginUser` returns an error
the chain ends with the 403 response of `requireLogin`, `requireLogin` does not call
`Next`, and no bound handler runs. -/
theorem C1_requireLogin_before_controller (r : RouteInfo)
    (hr : r ∈ userRoutes rootGrp ++ organizationRoutes rootGrp ++ clusterRoutes orgResourceGrp ++
      bundleRoutes clusterResourceGrp ++ bundleVersionRoutes bundleResourceGrp) :
    (∃ name, r.Handlers = [.Sessions, .requireLogin, .Bound name]) ∧
    ∀ (sv : Services) (pwd : String) (k : Nat) (req : Request) (e : GoError),
      (getLoginUser sv (newContext req r.Handlers)).2 = .error e →
      ∃ c, handle sv pwd (k + 4) r.Handlers req = some c ∧
        c.written = some (StatusForbidden, e.Error) ∧
        Event.Next .requireLogin ∉ c.trace ∧
        ∀ n u l, Event.Handler n u l ∉ c.trace := by
  have hshape := protected_chain_shape r hr
  refine ⟨⟨_, hshape⟩, ?_⟩
  intro sv pwd k req e he
  rw [hshape] at he ⊢
  have hres := getLoginUser_result_of_request sv
    (gateContext req [.Sessions, .requireLogin, .Bound (lastBound r.Handlers)])
    (newContext req [.Sessions, .requireLogin, .Bound (lastBound r.Handlers)]) rfl
  rw [he] at hres
  rw [handle_guarded_chain]
  by_cases h : (gateContext req [.Sessions, .requireLogin,
      .Bound (lastBound r.Handlers)]).GetHeader sv.YataiApiTokenHeaderName = ""
  · rw [getLoginUser_cookie sv _ h] at hres ⊢
    split at hres
    · rename_i hc
      simp only [hc, if_true]
      simp only [Except.error.injEq] at hres
      subst hres
      simp [gateContext, newContext]
    · rename_i hc
      simp only [hc, if_false]
      cases hn : sv.GetByName (sv.GetUsernameFromCookie
          (gateContext req [.Sessions, .requireLogin, .Bound (lastBound r.Handlers)]).Request) with
      | error err =>
        rw [hn] at hres
        simp only [Except.error.injEq] at hres
        subst hres
        simp [gateContext, newContext]
      | ok u => rw [hn] at hres; simp at hres
  · rw [getLoginUser_token sv _ h] at hres ⊢
    cases hn : sv.GetByApiToken ((gateContext req [.Sessions, .requireLogin,
        .Bound (lastBound r.Handlers)]).GetHeader sv.YataiApiTokenHeaderName) with
    | error err =>
      rw [hn] at hres
      simp only [Except.error.injEq] at hres
      subst hres
      simp [gateContext, newContext]
    | ok u => rw [hn] at hres; simp at hres

/-- C1 at `GET /api/v1/users` and a request without credentials. -/
theorem C1_requireLogin_before_controller_witness :
    ∃ c, handle sampleServices "/srv/yatai" 4
        ((rootGrp.Group "/users" "users" "users api").GET ""
      [.ID "List users", .Summary "List users"]
      [.requireLogin, tonicHandler "controllersv1.UserController.List" 200]).Handlers
        (anonymousRequest "GET" "/api/v1/users") = some c ∧
      c.written = some (StatusForbidden, (GoError.New "username in cookie is empty").Error) ∧
      Event.Next .requireLogin ∉ c.trace ∧
      ∀ n u l, Event.Handler n u l ∉ c.trace :=
  (C1_requireLogin_before_controller
    ((rootGrp.Group "/users" "users" "users api").GET ""
      [.ID "List users", .Summary "List users"]
      [.requireLogin, tonicHandler "controllersv1.UserController.List" 200]) (by decide)).2
    sampleServices "/srv/yatai" 0 (anonymousRequest "GET" "/api/v1/users")
    (.New "username in cookie is empty") rfl

/-- C2: when the API token header is not empty, `getLoginUser` calls
`GetByApiToken` once, with the header value, reads no cookie and makes no
`GetByName` call; its result does not change when the cookies of the request
change; and a failed token lookup is returned as an error whatever the cookie is. -/
theorem C2_api_token_precedence (sv : Services) (ctx : Context)
    (h : ctx.GetHeader sv.YataiApiTokenHeaderName ≠ "") :
    (∃ evs, (getLoginUser sv ctx).1.trace = ctx.trace ++ evs ∧
      evs.count (.GetByApiToken (ctx.GetHeader sv.YataiApiTokenHeaderName)) = 1 ∧
      (∀ t, Event.GetByApiToken t ∈ evs → t = ctx.GetHeader sv.YataiApiTokenHeaderName) ∧
      Event.GetUsernameFromCookie ∉ evs ∧ ∀ n, Event.GetByName n ∉ evs) ∧
    (∀ cookies, (getLoginUser sv { ctx with Request := { ctx.Request with Cookies := cookies } }).2 =
      (getLoginUser sv ctx).2) ∧
    (∀ err, sv.GetByApiToken (ctx.GetHeader sv.YataiApiTokenHeaderName) = .error err →
      (getLoginUser sv ctx).2 = .error (.Wrap err "get user by api token")) := by
  refine ⟨?_, ?_, ?_⟩
  · rw [getLoginUser_token sv ctx h]
    cases sv.GetByApiToken (ctx.GetHeader sv.YataiApiTokenHeaderName) with
    | error err => exact ⟨_, rfl, by simp [List.count_cons], by simp⟩
    | ok u => exact ⟨_, rfl, by simp [List.count_cons], by simp⟩
  · intro cookies
    have hh : ({ ctx with Request := { ctx.Request with Cookies := cookies } } : Context).GetHeader
        sv.YataiApiTokenHeaderName = ctx.GetHeader sv.YataiApiTokenHeaderName := rfl
    rw [getLoginUser_token sv ctx h, getLoginUser_token sv _ (hh ▸ h), hh]
    cases sv.GetByApiToken (ctx.GetHeader sv.YataiApiTokenHeaderName) <;> rfl
  · intro err herr
    rw [getLoginUser_token sv ctx h, herr]

/-- C2 on a request with an unknown token and the cookie of an existing user. -/
theorem C2_api_token_precedence_witness :
    (getLoginUser sampleServices
      (newContext (tokenRequest "GET" "/api/v1/users" "tok-x" "alice") [])).2 =
      .error (.Wrap (.New "record not found") "get user by api token") :=
  (C2_api_token_precedence sampleServices
    (newContext (tokenRequest "GET" "/api/v1/users" "tok-x" "alice") []) (by decide)).2.2
    (.New "record not found") rfl

/-- C3: with an empty token header and a cookie that decodes to the empty user
name, `getLoginUser` returns an error after reading the header and the cookie only
(no `GetByApiToken`, no `GetByName`), and `requireLogin` aborts with status 403
whatever `Next` is, without calling it. -/
theorem C3_no_credentials_forbidden (sv : Services) (ctx : Context)
    (Next : Context → Option Context)
    (htok : ctx.GetHeader sv.YataiApiTokenHeaderName = "")
    (hcookie : sv.GetUsernameFromCookie ctx.Request = "") :
    (getLoginUser sv ctx).2 = .error (.New "username in cookie is empty") ∧
    (getLoginUser sv ctx).1.trace =
      ctx.trace ++ [.GetHeader sv.YataiApiTokenHeaderName, .GetUsernameFromCookie] ∧
    ∃ c, requireLogin sv Next ctx = some c ∧
      c.written = some (403, "username in cookie is empty") ∧
      c.index = abortIndex ∧
      c.trace = ctx.trace ++ [.GetHeader sv.YataiApiTokenHeaderName, .GetUsernameFromCookie] := by
  have hg := getLoginUser_cookie sv ctx htok
  simp only [hcookie, if_true] at hg
  refine ⟨by rw [hg], by rw [hg], ?_⟩
  simp [requireLogin, hg, Context.AbortWithStatusJSON, Context.Abort, Context.JSON,
    StatusForbidden, GoError.Error]

/-- C3 on a request without header and cookie, with a `Next` that would fail. -/
theorem C3_no_credentials_forbidden_witness :
    ∃ c, requireLogin sampleServices (fun _ => none)
        (newContext (anonymousRequest "GET" "/api/v1/orgs") []) = some c ∧
      c.written = some (403, "username in cookie is empty") ∧
      c.index = abortIndex ∧
      c.trace = [] ++ [.GetHeader "X-YATAI-API-TOKEN", .GetUsernameFromCookie] :=
  (C3_no_credentials_forbidden sampleServices
    (newContext (anonymousRequest "GET" "/api/v1/orgs") []) (fun _ => none) rfl rfl).2.2

/-- C10: when `getLoginUser` returns an error, the context it leaves differs from
the one it got only by logged reads and lookups: no `SetUserName`, no
`SetLoginUser`, user name and logged-in user unchanged. When it returns a user,
both are called, with the name of that user and with that user. -/
theorem C10_context_written_iff_success (sv : Services) (ctx : Context) :
    (∀ e, (getLoginUser sv ctx).2 = .error e →
      ∃ evs, (getLoginUser sv ctx).1 = { ctx with trace := ctx.trace ++ evs } ∧
        (∀ n, Event.SetUserName n ∉ evs) ∧ ∀ u, Event.SetLoginUser u ∉ evs) ∧
    (∀ u, (getLoginUser sv ctx).2 = .ok u →
      ∃ evs, (getLoginUser sv ctx).1 =
          { ctx with trace := ctx.trace ++ (evs ++ [.SetUserName u.Name, .SetLoginUser u]),
                     userName := some u.Name, loginUser := some u } ∧
        (∀ n, Event.SetUserName n ∉ evs) ∧ ∀ v, Event.SetLoginUser v ∉ evs) :=
  getLoginUser_outcome sv ctx

/-- C10 on a context that already holds a user name, with a cookie of an unknown
user: the context keeps what it held. -/
theorem C10_context_written_iff_success_witness :
    ∃ evs, (getLoginUser sampleServices
        { newContext (cookieRequest "GET" "/api/v1/orgs" "mallory") [] with
          userName := some "earlier" }).1 =
        { newContext (cookieRequest "GET" "/api/v1/orgs" "mallory") [] with
          userName := some "earlier", trace := [] ++ evs } ∧
      (∀ n, Event.SetUserName n ∉ evs) ∧ ∀ u, Event.SetLoginUser u ∉ evs :=
  (C10_context_written_iff_success sampleServices
    { newContext (cookieRequest "GET" "/api/v1/orgs" "mallory") [] with
      userName := some "earlier" }).1
    (.Wrap (.New "record not found") "get user by name in cookie mallory") rfl

/-- C4, as the code has it: when the user-store lookup fails with the error `e`, the
message of the 403 body is the reason, a colon and a blank, and then the text of
`e` (`get user by api token: e` on the token branch,
`get user by name in cookie NAME: e` on the cookie branch), so the text of the
cause is part of the message. -/
theorem C4_forbidden_message_appends_cause (sv : Services) (ctx : Context)
    (Next : Context → Option Context) (e : GoError) :
    (ctx.GetHeader sv.YataiApiTokenHeaderName ≠ "" →
      sv.GetByApiToken (ctx.GetHeader sv.YataiApiTokenHeaderName) = .error e →
      bodyStatus (requireLogin sv Next ctx) = some StatusForbidden ∧
      bodyMessage (requireLogin sv Next ctx) = some ("get user by api token: " ++ e.Error) ∧
      Contains ("get user by api token: " ++ e.Error) e.Error) ∧
    (ctx.GetHeader sv.YataiApiTokenHeaderName = "" →
      sv.GetUsernameFromCookie ctx.Request ≠ "" →
      sv.GetByName (sv.GetUsernameFromCookie ctx.Request) = .error e →
      bodyStatus (requireLogin sv Next ctx) = some StatusForbidden ∧
      bodyMessage (requireLogin sv Next ctx) =
        some ("get user by name in cookie " ++ sv.GetUsernameFromCookie ctx.Request ++ ": " ++
          e.Error) ∧
      Contains ("get user by name in cookie " ++ sv.GetUsernameFromCookie ctx.Request ++ ": " ++
          e.Error) e.Error) := by
  refine ⟨fun h he => ?_, fun h hc he => ?_⟩
  · have hg := getLoginUser_token sv ctx h
    rw [he] at hg
    refine ⟨?_, ?_, ?_⟩
    · simp [bodyStatus, requireLogin, hg, Context.AbortWithStatusJSON, Context.Abort,
        Context.JSON]
    · simp [bodyMessage, requireLogin, hg, Context.AbortWithStatusJSON, Context.Abort,
        Context.JSON, GoError.Error]
    · exact (List.suffix_append _ _).isInfix
  · have hg := getLoginUser_cookie sv ctx h
    simp only [hc, if_false] at hg
    rw [he] at hg
    refine ⟨?_, ?_, ?_⟩
    · simp [bodyStatus, requireLogin, hg, Context.AbortWithStatusJSON, Context.Abort,
        Context.JSON]
    · simp [bodyMessage, requireLogin, hg, Context.AbortWithStatusJSON, Context.Abort,
        Context.JSON, GoError.Error]
    · exact (List.suffix_append _ _).isInfix

/-- C4 amended, on a request with an unknown token. -/
theorem C4_forbidden_message_appends_cause_witness :
    bodyStatus (requireLogin sampleServices some
        (newContext (tokenRequest "GET" "/api/v1/orgs" "tok-x" "") [])) = some StatusForbidden ∧
      bodyMessage (requireLogin sampleServices some
        (newContext (tokenRequest "GET" "/api/v1/orgs" "tok-x" "") [])) =
        some ("get user by api token: " ++ (GoError.New "record not found").Error) ∧
      Contains ("get user by api token: " ++ (GoError.New "record not found").Error)
        (GoError.New "record not found").Error :=
  (C4_forbidden_message_appends_cause sampleServices
    (newContext (tokenRequest "GET" "/api/v1/orgs" "tok-x" "") []) some
    (.New "record not found")).1 (by decide) rfl

/-- C4 as stated fails: the store answers `record not found` to the token `tok-x`,
and the 403 body of `requireLogin` is not the bare reason `get user by api token`;
it carries the text of the cause. -/
theorem C4_counterexample :
    sampleServices.GetByApiToken "tok-x" = .error (.New "record not found") ∧
    bodyStatus (requireLogin sampleServices some
      (newContext (tokenRequest "GET" "/api/v1/users" "tok-x" "alice") [])) = some 403 ∧
    bodyMessage (requireLogin sampleServices some
      (newContext (tokenRequest "GET" "/api/v1/users" "tok-x" "alice") [])) =
      some "get user by api token: record not found" ∧
    bodyMessage (requireLogin sampleServices some
      (newContext (tokenRequest "GET" "/api/v1/users" "tok-x" "alice") [])) ≠
      some "get user by api token" ∧
    Contains "get user by api token: record not found"
      (GoError.New "record not found").Error := by
  refine ⟨rfl, rfl, rfl, by decide, ?_⟩
  exact (List.suffix_append "get user by api token: ".data "record not found".data).isInfix

/-- C5: when `getLoginUser` succeeds with the user `u`, the context it leaves has
the user name `u.Name` and the logged-in user `u`, and `requireLogin` calls `Next`
on a context that holds both; in a guarded chain the bound handler then runs after
`SetUserName` and `SetLoginUser` and reads `u.Name` and `u`. In particular a cookie
that decodes to `alice`, for which `GetByName` returns a record named `alice`,
gives that record, and the bound handler reads the user name `alice`. -/
theorem C5_context_set_before_next (sv : Services) (pwd : String) (k : Nat) (name : String)
    (req : Request) :
    (∀ ctx u, (getLoginUser sv ctx).2 = .ok u →
      (getLoginUser sv ctx).1.userName = some u.Name ∧
      (getLoginUser sv ctx).1.loginUser = some u ∧
      ∃ c, c.userName = some u.Name ∧ c.loginUser = some u ∧
        ∀ Next, requireLogin sv Next ctx = Next c) ∧
    (∀ u, (getLoginUser sv (newContext req [.Sessions, .requireLogin, .Bound name])).2 = .ok u →
      ∃ c pre, handle sv pwd (k + 4) [.Sessions, .requireLogin, .Bound name] req = some c ∧
        c.trace = pre ++ [.SetUserName u.Name, .SetLoginUser u, .Next .requireLogin,
          .Handler name (some u.Name) (some u)] ∧
        c.userName = some u.Name ∧ c.loginUser = some u) ∧
    (∀ a, (newContext req [.Sessions, .requireLogin, .Bound name]).GetHeader
        sv.YataiApiTokenHeaderName = "" →
      sv.GetUsernameFromCookie req = "alice" → sv.GetByName "alice" = .ok a →
      a.Name = "alice" →
      (getLoginUser sv (newContext req [.Sessions, .requireLogin, .Bound name])).2 = .ok a ∧
      ∃ c pre, handle sv pwd (k + 4) [.Sessions, .requireLogin, .Bound name] req = some c ∧
        c.trace = pre ++ [.SetUserName "alice", .SetLoginUser a, .Next .requireLogin,
          .Handler name (some "alice") (some a)]) := by
  have hfirst : ∀ ctx u, (getLoginUser sv ctx).2 = .ok u →
      (getLoginUser sv ctx).1.userName = some u.Name ∧
      (getLoginUser sv ctx).1.loginUser = some u ∧
      ∃ evs, (getLoginUser sv ctx).1.trace =
        ctx.trace ++ (evs ++ [.SetUserName u.Name, .SetLoginUser u]) := by
    intro ctx u hu
    obtain ⟨evs, hevs, -, -⟩ := (getLoginUser_outcome sv ctx).2 u hu
    rw [hevs]
    exact ⟨rfl, rfl, evs, rfl⟩
  have hchain : ∀ u,
      (getLoginUser sv (newContext req [.Sessions, .requireLogin, .Bound name])).2 = .ok u →
      ∃ c pre, handle sv pwd (k + 4) [.Sessions, .requireLogin, .Bound name] req = some c ∧
        c.trace = pre ++ [.SetUserName u.Name, .SetLoginUser u, .Next .requireLogin,
          .Handler name (some u.Name) (some u)] ∧
        c.userName = some u.Name ∧ c.loginUser = some u := by
    intro u hu
    have hres := getLoginUser_result_of_request sv
      (gateContext req [.Sessions, .requireLogin, .Bound name])
      (newContext req [.Sessions, .requireLogin, .Bound name]) rfl
    rw [hu] at hres
    obtain ⟨hn, hl, evs, ht⟩ := hfirst _ u hres
    rw [handle_guarded_chain]
    rcases hg : getLoginUser sv (gateContext req [.Sessions, .requireLogin, .Bound name])
      with ⟨c, res⟩
    rw [hg] at hres hn hl ht
    simp only at hres hn hl ht
    subst hres
    refine ⟨_, (gateContext req [.Sessions, .requireLogin, .Bound name]).trace ++ evs, rfl, ?_,
      hn, hl⟩
    simp [ht, hn, hl]
  refine ⟨?_, hchain, ?_⟩
  · intro ctx u hu
    obtain ⟨hn, hl, -⟩ := hfirst ctx u hu
    refine ⟨hn, hl, (getLoginUser sv ctx).1.log (.Next .requireLogin), hn, hl, ?_⟩
    intro Next
    rcases hg : getLoginUser sv ctx with ⟨c, res⟩
    rw [hg] at hu
    simp only at hu
    subst hu
    simp [requireLogin, hg]
  · intro a htok hcookie hstore hname
    have hg := getLoginUser_cookie sv _ htok
    have hreq : (newContext req [.Sessions, .requireLogin, .Bound name]).Request = req := rfl
    rw [hreq, hcookie] at hg
    simp only [hstore] at hg
    have hne : ¬ ("alice" = "") := by decide
    simp only [hne, if_false] at hg
    have hok : (getLoginUser sv (newContext req [.Sessions, .requireLogin, .Bound name])).2 =
        .ok a := by rw [hg]
    refine ⟨hok, ?_⟩
    obtain ⟨c, pre, hc, ht, -, -⟩ := hchain a hok
    exact ⟨c, pre, hc, by rw [ht, hname]⟩

/-- C5 on `GET /api/v1/orgs` with the session cookie of `alice`. -/
theorem C5_context_set_before_next_witness :
    (getLoginUser sampleServices
      (newContext (cookieRequest "GET" "/api/v1/orgs" "alice")
        [.Sessions, .requireLogin, .Bound "controllersv1.OrganizationController.List"])).2 =
      .ok ⟨1, "alice"⟩ ∧
    ∃ c pre, handle sampleServices "/srv/yatai" 4
        [.Sessions, .requireLogin, .Bound "controllersv1.OrganizationController.List"]
        (cookieRequest "GET" "/api/v1/orgs" "alice") = some c ∧
      c.trace = pre ++ [.SetUserName "alice", .SetLoginUser ⟨1, "alice"⟩, .Next .requireLogin,
        .Handler "controllersv1.OrganizationController.List" (some "alice")
          (some ⟨1, "alice"⟩)] :=
  (C5_context_set_before_next sampleServices "/srv/yatai" 0
    "controllersv1.OrganizationController.List" (cookieRequest "GET" "/api/v1/orgs" "alice")).2.2
    ⟨1, "alice"⟩ rfl rfl rfl rfl

/-- C6: `POST /api/v1/auth/register` and `POST /api/v1/auth/login` are registered
with the chain session middleware, bound controller handler, without
`requireLogin`; on every request, whatever its credentials, the chain reaches the
bound handler and makes no call of `getLoginUser` (no header read, no cookie read,
no lookup). -/
theorem C6_register_and_login_are_open (pwd : String) (fizzErrors : List String) (e : Engine)
    (h : NewRouter pwd fizzErrors = .ok e) :
    (∃ r ∈ e.routes, r.Method = "POST" ∧ r.Path = "/api/v1/auth/register" ∧
      r.Handlers = [.Sessions, .Bound "controllersv1.AuthController.Register"]) ∧
    (∃ r ∈ e.routes, r.Method = "POST" ∧ r.Path = "/api/v1/auth/login" ∧
      r.Handlers = [.Sessions, .Bound "controllersv1.AuthController.Login"]) ∧
    ∀ r ∈ e.routes, r.Method = "POST" →
      r.Path = "/api/v1/auth/register" ∨ r.Path = "/api/v1/auth/login" →
      HandlerFunc.requireLogin ∉ r.Handlers ∧
      ∀ (sv : Services) (k : Nat) (req : Request),
        ∃ c, handle sv pwd (k + 3) r.Handlers req = some c ∧
          c.trace = [.Next .Sessions, .Handler (lastBound r.Handlers) none none] := by
  obtain ⟨hroutes, -⟩ := NewRouter_ok pwd fizzErrors e h
  have hreg : ∃ r ∈ declaredRoutes, r.Method = "POST" ∧ r.Path = "/api/v1/auth/register" ∧
      r.Handlers = [.Sessions, .Bound "controllersv1.AuthController.Register"] := by decide
  have hlog : ∃ r ∈ declaredRoutes, r.Method = "POST" ∧ r.Path = "/api/v1/auth/login" ∧
      r.Handlers = [.Sessions, .Bound "controllersv1.AuthController.Login"] := by decide
  have hmem : ∀ r ∈ declaredRoutes, r ∈ e.routes := fun r hr => by
    rw [hroutes]; exact List.mem_append_left _ hr
  refine ⟨?_, ?_, ?_⟩
  · obtain ⟨r, hr, hrest⟩ := hreg
    exact ⟨r, hmem r hr, hrest⟩
  · obtain ⟨r, hr, hrest⟩ := hlog
    exact ⟨r, hmem r hr, hrest⟩
  · intro r hr hm hp
    have hshape : r.Handlers = [.Sessions, .Bound (lastBound r.Handlers)] := by
      rw [hroutes, List.mem_append] at hr
      rcases hr with hr | hr
      · have hall : ∀ r ∈ declaredRoutes, r.Method = "POST" →
            r.Path = "/api/v1/auth/register" ∨ r.Path = "/api/v1/auth/login" →
            r.Handlers = [.Sessions, .Bound (lastBound r.Handlers)] := by decide
        exact hall r hr hm hp
      · rw [static_routes] at hr
        simp only [List.mem_cons, List.mem_singleton, List.not_mem_nil, or_false] at hr
        rcases hr with hr | hr <;> subst hr <;> simp at hm
    refine ⟨?_, ?_⟩
    · rw [hshape]; simp
    · intro sv k req
      rw [hshape, handle_open_chain]
      refine ⟨_, rfl, ?_⟩
      simp [lastBound]

/-- C6 on `POST /api/v1/auth/login` and a request without credentials. -/
theorem C6_register_and_login_are_open_witness :
    ∃ r ∈ declaredRoutes ++ engineGroup.Static "/swagger" (pathJoin ["/srv/yatai", "statics/swagger-ui"]),
      r.Method = "POST" ∧ r.Path = "/api/v1/auth/login" ∧
      r.Handlers = [.Sessions, .Bound "controllersv1.AuthController.Login"] :=
  (C6_register_and_login_are_open "/srv/yatai" [] _ (NewRouter_no_errors "/srv/yatai")).2.1

/-- C7, as the code has it: in the route table built by `NewRouter`, every route has
the chain session middleware, `requireLogin`, bound handler, except seven routes
that have the chain session middleware, bound handler: `GET /oauth/github`,
`GET /callback/github`, `GET /openapi.json`, `POST /api/v1/auth/register`,
`POST /api/v1/auth/login`, and `GET` and `HEAD /swagger/*filepath`; all seven are
registered. -/
theorem C7_gate_free_routes_of_NewRouter (pwd : String) (fizzErrors : List String)
    (e : Engine) (h : NewRouter pwd fizzErrors = .ok e) :
    (∀ r ∈ e.routes, (r.Method, r.Path) ∉ gateFreeRoutes →
      r.Handlers = [.Sessions, .requireLogin, .Bound (lastBound r.Handlers)]) ∧
    (∀ r ∈ e.routes, (r.Method, r.Path) ∈ gateFreeRoutes →
      r.Handlers = [.Sessions, .Bound (lastBound r.Handlers)]) ∧
    ∀ p ∈ gateFreeRoutes, ∃ r ∈ e.routes, (r.Method, r.Path) = p := by
  obtain ⟨hroutes, -⟩ := NewRouter_ok pwd fizzErrors e h
  rw [hroutes, static_routes]
  refine ⟨?_, ?_, ?_⟩
  · intro r hr hp
    rw [List.mem_append] at hr
    rcases hr with hr | hr
    · exact (apiRoutes_chain_shape r hr).1 hp
    · simp only [List.mem_cons, List.mem_singleton, List.not_mem_nil, or_false] at hr
      rcases hr with hr | hr <;> subst hr <;> exact absurd (by simp [gateFreeRoutes]) hp
  · intro r hr hp
    rw [List.mem_append] at hr
    rcases hr with hr | hr
    · exact (apiRoutes_chain_shape r hr).2 hp
    · simp only [List.mem_cons, List.mem_singleton, List.not_mem_nil, or_false] at hr
      rcases hr with hr | hr <;> subst hr <;> simp [lastBound]
  · have hapi : ∀ p ∈ gateFreeRoutes.take 5, ∃ r ∈ declaredRoutes, (r.Method, r.Path) = p := by
      decide
    intro p hp
    have hsplit : p ∈ gateFreeRoutes.take 5 ∨ p = ("GET", "/swagger/*filepath") ∨
        p = ("HEAD", "/swagger/*filepath") := by
      simp only [gateFreeRoutes, List.mem_cons, List.mem_singleton, List.not_mem_nil,
        or_false] at hp
      simp only [gateFreeRoutes, List.take, List.mem_cons, List.mem_singleton,
        List.not_mem_nil, or_false]
      tauto
    rcases hsplit with hp | hp | hp
    · obtain ⟨r, hr, hrp⟩ := hapi p hp
      exact ⟨r, List.mem_append_left _ hr, hrp⟩
    · subst hp
      exact ⟨_, List.mem_append_right _ (List.mem_cons_self _ _), rfl⟩
    · subst hp
      exact ⟨_, List.mem_append_right _ (List.mem_cons_of_mem _ (List.mem_cons_self _ _)), rfl⟩

/-- C7 amended, on the router built in `/srv/yatai`: `GET /openapi.json` is
registered. -/
theorem C7_gate_free_routes_of_NewRouter_witness :
    ∃ r ∈ declaredRoutes ++ engineGroup.Static "/swagger" (pathJoin ["/srv/yatai", "statics/swagger-ui"]),
      (r.Method, r.Path) = ("GET", "/openapi.json") :=
  (C7_gate_free_routes_of_NewRouter "/srv/yatai" [] _ (NewRouter_no_errors "/srv/yatai")).2.2
    ("GET", "/openapi.json") (by decide)

/-- C7 as stated fails: the router built in `/srv/yatai` has a route without
`requireLogin` that is neither an OAuth route nor a login endpoint
(`GET /openapi.json`). -/
theorem C7_counterexample :
    ¬ ∀ e, NewRouter "/srv/yatai" [] = .ok e →
      ∀ r ∈ e.routes, HandlerFunc.requireLogin ∈ r.Handlers ∨ (r.Method, r.Path) ∈ specGateFree := by
  intro hall
  have h := hall _ (NewRouter_no_errors "/srv/yatai")
    ⟨"GET", "/openapi.json", [], [.Sessions, .Bound "fizzApp.OpenAPI"]⟩
    (List.mem_append_left _ (by decide))
  revert h
  decide

/-- C8: the chain that `NewRouter` installs for unmatched requests ends, for every
method `m` and every path `p`, with status 404 and the message
`not found this router with method m` exactly when `p` starts with `/api/` or with
the static prefix `/swagger`; for every other path it writes nothing. -/
theorem C8_noRoute_fallback (pwd : String) (fizzErrors : List String) (e : Engine)
    (h : NewRouter pwd fizzErrors = .ok e) (sv : Services) (k : Nat) (req : Request) :
    ∃ c, handle sv pwd (k + 3) e.allNoRoute req = some c ∧
      (c.written = some (StatusNotFound, "not found this router with method " ++ req.Method) ↔
        (HasPrefix req.Path "/api/" = true ∨ HasPrefix req.Path "/swagger" = true)) ∧
      (¬ (HasPrefix req.Path "/api/" = true ∨ HasPrefix req.Path "/swagger" = true) →
        c.written = none) := by
  obtain ⟨-, hno⟩ := NewRouter_ok pwd fizzErrors e h
  rw [hno, handle_noRoute_chain]
  refine ⟨_, rfl, ?_⟩
  by_cases hapi : HasPrefix req.Path "/api/" = true
  · simp [noRouteHandler, gateContext, newContext, Context.JSON, hapi]
  · by_cases hsw : HasPrefix req.Path "/swagger" = true
    · simp [noRouteHandler, gateContext, newContext, Context.JSON, hapi, hsw, staticDirs]
    · simp [noRouteHandler, gateContext, newContext, Context.JSON, hapi, hsw, staticDirs]

/-- C8 on `GET /api/v1/nonexistent`: status 404 and the message
`not found this router with method GET`. -/
theorem C8_noRoute_fallback_witness :
    ∃ c, handle sampleServices "/srv/yatai" 3 [.Sessions, .NoRoute]
        (anonymousRequest "GET" "/api/v1/nonexistent") = some c ∧
      c.written = some (404, "not found this router with method GET") :=
  match C8_noRoute_fallback "/srv/yatai" [] _ (NewRouter_no_errors "/srv/yatai") sampleServices 0
    (anonymousRequest "GET" "/api/v1/nonexistent") with
  | ⟨c, hc, hiff, _⟩ => ⟨c, hc, hiff.mpr (Or.inl (by decide))⟩

/-- C9: the triples (method, path template, guarded) of the routes that
`authRoutes`, `userRoutes` and `organizationRoutes` register under `/api/v1` are
the hierarchy of section 4.4 of the spec, each once and no other; the routes of
`clusterRoutes`, `bundleRoutes` and `bundleVersionRoutes` are registered below
the named parameter of their parent. -/
theorem C9_route_hierarchy :
    ((authRoutes rootGrp ++ userRoutes rootGrp ++ organizationRoutes rootGrp).map
      RouteInfo.triple).Perm specHierarchy ∧
    specHierarchy.Nodup ∧
    organizationRoutes rootGrp =
      (organizationRoutes rootGrp).take 7 ++ clusterRoutes orgResourceGrp ∧
    clusterRoutes orgResourceGrp =
      (clusterRoutes orgResourceGrp).take 7 ++ bundleRoutes clusterResourceGrp ∧
    bundleRoutes clusterResourceGrp =
      (bundleRoutes clusterResourceGrp).take 4 ++ bundleVersionRoutes bundleResourceGrp ∧
    (∀ r ∈ clusterRoutes orgResourceGrp,
      HasPrefix r.Path "/api/v1/orgs/:orgName/clusters" = true) ∧
    (∀ r ∈ bundleRoutes clusterResourceGrp,
      HasPrefix r.Path "/api/v1/orgs/:orgName/clusters/:clusterName/bundles" = true) ∧
    (∀ r ∈ bundleVersionRoutes bundleResourceGrp,
      HasPrefix r.Path
        "/api/v1/orgs/:orgName/clusters/:clusterName/bundles/:bundleName/versions" = true) := by
  refine ⟨by decide, by decide, by decide, by decide, by decide, by decide, by decide, by decide⟩

end Yatai
